import Mathlib

/-!
Verification of the migration-state store (package `migrate`, MySQL backend).

The Go source operates on three MySQL tables (`metaversion`, `meta`,
`metacheckpoints`).  We embed the database state shallowly: each table is a
list of rows, and every store operation from `mysql.go` becomes a function
from states to states (paired with `Except` where the SQL statement can
fail).  MySQL error conditions relevant to the source — "Error 1050" table
already exists, "Error 1062" duplicate entry for a unique/primary key,
"Duplicate column name", dropping an absent index, and converting a column
holding NULLs to NOT NULL — are represented by the `SqlError` inductive.
-/

deriving instance DecidableEq for Except

namespace Migrate

/-- A migration record as exposed by the store (`migrate.Migration`):
filename, verbatim content, and content checksum. -/
structure Migration where
  filename : String
  content : String
  checksum : String
deriving DecidableEq

/-- Database-level errors surfaced by the modelled SQL statements.
`wrapped ctx e` models `errors.Wrap(e, ctx)`. -/
inductive SqlError where
  | tableExists (table : String)
  | dupEntry (key : String)
  | dupColumn (column : String)
  | cantDropIndex (index : String)
  | invalidNull (column : String)
  | wrapped (context : String) (e : SqlError)
deriving DecidableEq

/-- Models `strings.Contains(err.Error(), "Error 1050:")`: MySQL reports
`tableExists` as Error 1050. -/
def SqlError.is1050 : SqlError → Bool
  | SqlError.tableExists _ => true
  | _ => false

/-- Models `strings.Contains(err.Error(), "Duplicate column name")`. -/
def SqlError.isDupColumn : SqlError → Bool
  | SqlError.dupColumn _ => true
  | _ => false

/-- Integrity violations (MySQL Error 1062, duplicate entry for a UNIQUE or
PRIMARY KEY) — the error kind a caller can distinguish from every other
failure. -/
def SqlError.isIntegrityError : SqlError → Bool
  | SqlError.dupEntry _ => true
  | _ => false

end Migrate

namespace Migrate.Mysql

open Migrate

/-- One row of the v1 `meta` table (see `CreateMetaIfNotExists`):
`filename VARCHAR(255) UNIQUE NOT NULL, md5, content,
createdat DATETIME(6) DEFAULT CURRENT_TIMESTAMP(6)`. -/
structure MetaRow where
  filename : String
  md5 : String
  content : String
  createdat : Nat
deriving DecidableEq

/-- One row of the v1 `metacheckpoints` table
(see `CreateMetaCheckpointsIfNotExists`): `PRIMARY KEY (filename, idx)`. -/
structure CheckpointRow where
  filename : String
  idx : Int
  md5 : String
  content : String
  createdat : Nat
deriving DecidableEq

/-- The v1 database state.  `meta` and `metacheckpoints` are modelled as
existing tables (their `CREATE TABLE IF NOT EXISTS` has run); the
`metaversion` table's existence is tracked explicitly (`none` = absent)
because `CreateMetaVersionIfNotExists` branches on it.  `now` models the
DATETIME value the database would assign via `CURRENT_TIMESTAMP(6)`. -/
structure DBState where
  metaversion : Option (List Int)
  meta : List MetaRow
  metacheckpoints : List CheckpointRow
  now : Nat
deriving DecidableEq

/-- Models the implicit MySQL string-to-number coercion performed by
`ORDER BY filename * 1`: the longest leading run of decimal digits is read
as the numeric value of the string (migration filenames encode a leading
sequence number; a filename with no leading digits coerces to 0). -/
def leadingNumberAux : List Char → Nat → Nat
  | [], acc => acc
  | c :: cs, acc =>
    if c.isDigit then leadingNumberAux cs (10 * acc + (c.toNat - 48)) else acc

/-- The sort key of `ORDER BY filename * 1`. -/
def leadingNumber (s : String) : Nat :=
  leadingNumberAux s.toList 0

/-- Comparison by an integer-valued key, the order used to model the SQL
`ORDER BY` clauses. -/
def keyLE (key : α → Int) : α → α → Prop :=
  fun a b => key a ≤ key b

instance (key : α → Int) : DecidableRel (keyLE key) :=
  fun a b => Int.decLe (key a) (key b)

/-- The helper shared by the version-table code after the `CREATE TABLE`
attempt: `SELECT version FROM metaversion` (`db.Get` yields the first row
or `sql.ErrNoRows`); on no rows, insert `schemaVersion` — downgraded to 0
when the table pre-existed (`created == false`) — and report it; otherwise
report the stored version. -/
def versionQuery (s : DBState) (created : Bool) (schemaVersion : Int) :
    Except SqlError (Int × DBState) :=
  match (s.metaversion.getD []).head? with
  | none =>
    let v := if created then schemaVersion else 0
    Except.ok (v, { s with metaversion := some ((s.metaversion.getD []) ++ [v]) })
  | some v => Except.ok (v, s)

/-- `CreateMetaVersionIfNotExists` from `mysql.go`: run
`CREATE TABLE metaversion (version INTEGER NOT NULL)`; a failure whose
message lacks "Error 1050:" is returned wrapped, an Error 1050 (table
already exists) clears the `created` flag; then the version query above. -/
def CreateMetaVersionIfNotExists (s : DBState) (schemaVersion : Int) :
    Except SqlError (Int × DBState) :=
  let createRes : Except SqlError DBState :=
    match s.metaversion with
    | none => Except.ok { s with metaversion := some [] }
    | some _ => Except.error (SqlError.tableExists "metaversion")
  match createRes with
  | Except.ok s2 => versionQuery s2 true schemaVersion
  | Except.error e =>
    if e.is1050 then versionQuery s false schemaVersion
    else Except.error (SqlError.wrapped "create metaversion table" e)

/-- `GetMigrations`: `SELECT filename, content, md5 AS checksum FROM meta
ORDER BY filename * 1`. -/
def GetMigrations (s : DBState) : List Migration :=
  (List.insertionSort (keyLE (fun r : MetaRow => (leadingNumber r.filename : Int)))
      s.meta).map
    (fun r => { filename := r.filename, content := r.content, checksum := r.md5 })

/-- `GetMetaCheckpoints`: `SELECT md5 FROM metacheckpoints WHERE filename=?
ORDER BY idx`. -/
def GetMetaCheckpoints (s : DBState) (filename : String) : List String :=
  (List.insertionSort (keyLE (fun r : CheckpointRow => r.idx))
      (s.metacheckpoints.filter (fun r => r.filename == filename))).map
    (fun r => r.md5)

/-- `UpsertMigration`: `INSERT INTO meta (filename, content, md5) VALUES
(?, ?, ?) ON DUPLICATE KEY UPDATE md5=?, content=?` — on a duplicate of the
UNIQUE `filename` the existing row's `md5` and `content` are updated in
place, otherwise a fresh row is appended with the database-assigned
`createdat`. -/
def UpsertMigration (s : DBState) (filename content checksum : String) : DBState :=
  if s.meta.any (fun r => r.filename == filename) then
    { s with
      meta := s.meta.map (fun r =>
        if r.filename == filename then { r with md5 := checksum, content := content }
        else r) }
  else
    { s with
      meta := s.meta ++
        [{ filename := filename, md5 := checksum, content := content,
           createdat := s.now }] }

/-- `InsertMigration`: `INSERT INTO meta (filename, content, md5) VALUES
(?, ?, ?)`; the UNIQUE constraint on `filename` makes the statement fail
with MySQL Error 1062 (duplicate entry) when the filename is present. -/
def InsertMigration (s : DBState) (filename content checksum : String) :
    Except SqlError DBState :=
  if s.meta.any (fun r => r.filename == filename) then
    Except.error (SqlError.dupEntry filename)
  else
    Except.ok
      { s with
        meta := s.meta ++
          [{ filename := filename, md5 := checksum, content := content,
             createdat := s.now }] }

/-- `InsertMetaCheckpoint`: `INSERT INTO metacheckpoints (filename, content,
idx, md5) VALUES (?, ?, ?, ?)`; the PRIMARY KEY `(filename, idx)` makes the
statement fail with MySQL Error 1062 when that pair is present. -/
def InsertMetaCheckpoint (s : DBState) (filename content checksum : String)
    (idx : Int) : Except SqlError DBState :=
  if s.metacheckpoints.any (fun r => r.filename == filename && r.idx == idx) then
    Except.error (SqlError.dupEntry (filename ++ "-" ++ toString idx))
  else
    Except.ok
      { s with
        metacheckpoints := s.metacheckpoints ++
          [{ filename := filename, idx := idx, md5 := checksum, content := content,
             createdat := s.now }] }

/-- `DeleteMetaCheckpoints`: `DELETE FROM metacheckpoints` (no WHERE
clause — every row of the table, for every filename). -/
def DeleteMetaCheckpoints (s : DBState) : DBState :=
  { s with metacheckpoints := [] }

/-- A `meta` row during the v0 to v1 upgrade: `content` is `none` while the
column is absent or holds NULL. -/
structure MetaRowV0 where
  filename : String
  md5 : String
  content : Option String
  createdat : Nat
deriving DecidableEq

/-- A `metacheckpoints` row during the upgrade, with a possibly absent
`content` column. -/
structure CheckpointRowV0 where
  filename : String
  idx : Int
  md5 : String
  content : Option String
  createdat : Nat
deriving DecidableEq

/-- The schema-level state `UpgradeToV1` operates on: which structural
pieces of the tracking tables exist, plus the rows themselves.  A v0 schema
has `metaHasMd5Index = true`, `metaHasContent = false`,
`cpHasContent = false`. -/
structure SchemaState where
  metaHasMd5Index : Bool
  metaHasContent : Bool
  metaContentNotNull : Bool
  meta : List MetaRowV0
  cpHasContent : Bool
  metacheckpoints : List CheckpointRowV0
  metaversion : Option (List Int)
deriving DecidableEq

/-- `ALTER TABLE meta DROP INDEX md5` — MySQL errors when no index of that
name exists. -/
def dropMd5Index (s : SchemaState) : Except SqlError SchemaState :=
  if s.metaHasMd5Index then Except.ok { s with metaHasMd5Index := false }
  else Except.error (SqlError.cantDropIndex "md5")

/-- `ALTER TABLE meta ADD COLUMN content TEXT` — a duplicate column is an
error (not tolerated at this step); on success every existing row's new
column holds NULL. -/
def addMetaContent (s : SchemaState) : Except SqlError SchemaState :=
  if s.metaHasContent then Except.error (SqlError.dupColumn "content")
  else
    Except.ok
      { s with metaHasContent := true,
               meta := s.meta.map (fun r => { r with content := none }) }

/-- The backfill loop: for every supplied migration `m`, run
`UPDATE meta SET content=? WHERE filename=?`. -/
def backfillContent (s : SchemaState) (migrations : List Migration) : SchemaState :=
  migrations.foldl
    (fun acc m =>
      { acc with
        meta := acc.meta.map (fun r =>
          if r.filename == m.filename then { r with content := some m.content }
          else r) })
    s

/-- `ALTER TABLE meta MODIFY COLUMN content TEXT NOT NULL` — under strict
SQL mode the conversion fails while some row still holds NULL. -/
def setContentNotNull (s : SchemaState) : Except SqlError SchemaState :=
  if s.meta.any (fun r => r.content.isNone) then
    Except.error (SqlError.invalidNull "content")
  else Except.ok { s with metaContentNotNull := true }

/-- `ALTER TABLE metacheckpoints ADD COLUMN content TEXT NOT NULL` — errors
with "Duplicate column name" when present; on success existing rows receive
the implicit TEXT default (the empty string). -/
def addCpContent (s : SchemaState) : Except SqlError SchemaState :=
  if s.cpHasContent then Except.error (SqlError.dupColumn "content")
  else
    Except.ok
      { s with cpHasContent := true,
               metacheckpoints :=
                 s.metacheckpoints.map (fun r => { r with content := some "" }) }

/-- The final three statements: `CREATE TABLE IF NOT EXISTS metaversion
(version INTEGER NOT NULL)`, `DELETE FROM metaversion`, and
`INSERT INTO metaversion (version) VALUES (1)` — none can fail, and the
table ends holding exactly the row 1. -/
def writeVersionOne (s : SchemaState) : SchemaState :=
  { s with metaversion := some [1] }

/-- The body of the `UpgradeToV1` transaction, statement by statement in
source order; each failing statement's error is wrapped with the same
context string as in the Go code, and only a "Duplicate column name" error
on the `metacheckpoints` ALTER is tolerated. -/
def upgradeSteps (s0 : SchemaState) (migrations : List Migration) :
    Except SqlError SchemaState :=
  match dropMd5Index s0 with
  | Except.error e => Except.error (SqlError.wrapped "remove md5 unique" e)
  | Except.ok s1 =>
    match addMetaContent s1 with
    | Except.error e => Except.error (SqlError.wrapped "add content column" e)
    | Except.ok s2 =>
      match setContentNotNull (backfillContent s2 migrations) with
      | Except.error e =>
        Except.error (SqlError.wrapped "update meta content not null" e)
      | Except.ok s4 =>
        match addCpContent s4 with
        | Except.error e =>
          if e.isDupColumn then Except.ok (writeVersionOne s4)
          else Except.error (SqlError.wrapped "add metacheckpoints content" e)
        | Except.ok s5 => Except.ok (writeVersionOne s5)

/-- `UpgradeToV1` from `mysql.go`: `db.Beginx()`, the statements above
against the transaction, then the deferred `tx.Rollback()` when any step
returned an error (the caller observes the pre-transaction state) or
`tx.Commit()` on success.  Returns the observed state and the error, if
any. -/
def UpgradeToV1 (s : SchemaState) (migrations : List Migration) :
    SchemaState × Option SqlError :=
  match upgradeSteps s migrations with
  | Except.ok s2 => (s2, none)
  | Except.error e => (s, some e)

/-- The TLS material recorded by `newTLSConfig` (reading and parsing the CA
and key-pair files is external I/O and is elided; the record keeps the
paths and the server name that the verification callback pins). -/
structure TLSConfig where
  serverName : String
  keyPath : String
  certPath : String
  caPath : String
deriving DecidableEq

/-- The value constructed by `New`: the DSN and the optional TLS
configuration. -/
structure DBConn where
  connURL : String
  tlsConfig : Option TLSConfig
deriving DecidableEq

/-- `New` from `mysql.go`: build the DSN; only when `sslKey` is non-empty,
require the server name, the client cert and the CA cert in turn (each
missing one is a distinct configuration error), extend the DSN with the
`tls` parameter and build the TLS configuration. -/
def New (user pass host dbName : String) (port : Int)
    (sslKey sslCert sslCA sslServerName : String) : Except String DBConn :=
  let connURL := user ++ ":" ++ pass ++ "@tcp(" ++ host ++ ":" ++ toString port
    ++ ")/" ++ dbName ++ "?parseTime=true"
  if sslKey ≠ "" then
    if sslServerName = "" then
      Except.error "ssl server name required if ssl key is provided"
    else if sslCert = "" then
      Except.error "client ssl cert is required if ssl key is provided"
    else if sslCA = "" then
      Except.error "server ca cert is required if ssl key is provided"
    else
      Except.ok
        { connURL := connURL ++ "&tls=" ++ sslServerName,
          tlsConfig := some
            { serverName := sslServerName, keyPath := sslKey,
              certPath := sslCert, caPath := sslCA } }
  else
    Except.ok { connURL := connURL, tlsConfig := none }

end Migrate.Mysql

namespace Migrate.Mysql

/-- Case analysis helper: a fresh database (no `metaversion` table) is
created and seeded with the requested version. -/
theorem cmv_of_none (s : DBState) (sv : Int) (h : s.metaversion = none) :
    CreateMetaVersionIfNotExists s sv =
      Except.ok (sv, { s with metaversion := some [sv] }) := by
  simp [CreateMetaVersionIfNotExists, versionQuery, h]

/-- Case analysis helper: a pre-existing empty `metaversion` table is seeded
with 0 regardless of the requested version. -/
theorem cmv_of_empty (s : DBState) (sv : Int) (h : s.metaversion = some []) :
    CreateMetaVersionIfNotExists s sv =
      Except.ok (0, { s with metaversion := some [0] }) := by
  simp [CreateMetaVersionIfNotExists, versionQuery, SqlError.is1050, h]

/-- Case analysis helper: a populated `metaversion` table is left untouched
and its first stored row is reported. -/
theorem cmv_of_cons (s : DBState) (sv w : Int) (t : List Int)
    (h : s.metaversion = some (w :: t)) :
    CreateMetaVersionIfNotExists s sv = Except.ok (w, s) := by
  simp [CreateMetaVersionIfNotExists, versionQuery, SqlError.is1050, h]

/-- After any successful call the reported version heads the stored rows. -/
theorem cmv_head (s : DBState) (sv v : Int) (s1 : DBState)
    (h : CreateMetaVersionIfNotExists s sv = Except.ok (v, s1)) :
    ∃ t, s1.metaversion = some (v :: t) := by
  rcases hmv : s.metaversion with _ | rows
  · rw [cmv_of_none s sv hmv] at h
    obtain ⟨h1, h2⟩ := by simpa using h
    exact ⟨[], by simp [← h2, h1]⟩
  · rcases rows with _ | ⟨w, t⟩
    · rw [cmv_of_empty s sv hmv] at h
      obtain ⟨h1, h2⟩ := by simpa using h
      exact ⟨[], by simp [← h2, ← h1]⟩
    · rw [cmv_of_cons s sv w t hmv] at h
      obtain ⟨h1, h2⟩ := by simpa using h
      exact ⟨t, by simp [← h2, ← h1, hmv]⟩

/-- If the table held at most one row before the call, it holds exactly the
reported row afterwards. -/
theorem cmv_one_row (s : DBState) (sv v : Int) (s1 : DBState)
    (hle : ∀ rows, s.metaversion = some rows → rows.length ≤ 1)
    (h : CreateMetaVersionIfNotExists s sv = Except.ok (v, s1)) :
    s1.metaversion = some [v] := by
  rcases hmv : s.metaversion with _ | rows
  · rw [cmv_of_none s sv hmv] at h
    obtain ⟨h1, h2⟩ := by simpa using h
    simp [← h2, h1]
  · rcases rows with _ | ⟨w, t⟩
    · rw [cmv_of_empty s sv hmv] at h
      obtain ⟨h1, h2⟩ := by simpa using h
      simp [← h2, ← h1]
    · rcases t with _ | ⟨w2, t2⟩
      · rw [cmv_of_cons s sv w [] hmv] at h
        obtain ⟨h1, h2⟩ := by simpa using h
        simp [← h2, ← h1, hmv]
      · have := hle (w :: w2 :: t2) hmv
        simp at this

/-- C3: for every `defaultVersion` argument, `CreateMetaVersionIfNotExists`
creates the version table when absent and seeds it with the default, seeds
it with 0 instead when the table pre-existed but is empty, leaves the state
untouched and reports the stored version when a row is present — in every
case reporting the version that now heads the table. -/
theorem createMetaVersion_spec (s : DBState) (sv : Int) :
    (s.metaversion = none →
      CreateMetaVersionIfNotExists s sv =
        Except.ok (sv, { s with metaversion := some [sv] })) ∧
    (s.metaversion = some [] →
      CreateMetaVersionIfNotExists s sv =
        Except.ok (0, { s with metaversion := some [0] })) ∧
    (∀ w t, s.metaversion = some (w :: t) →
      CreateMetaVersionIfNotExists s sv = Except.ok (w, s)) ∧
    (∀ v s1, CreateMetaVersionIfNotExists s sv = Except.ok (v, s1) →
      ∃ t, s1.metaversion = some (v :: t)) := by
  exact ⟨cmv_of_none s sv, cmv_of_empty s sv,
    fun w t h => cmv_of_cons s sv w t h,
    fun v s1 h => cmv_head s sv v s1 h⟩

/-- C3 witness: a fresh database is seeded with the caller's default 7. -/
theorem createMetaVersion_spec_witness :
    CreateMetaVersionIfNotExists
        { metaversion := none, meta := [], metacheckpoints := [], now := 0 } 7 =
      Except.ok (7,
        { metaversion := some [7], meta := [], metacheckpoints := [], now := 0 }) :=
  (createMetaVersion_spec
      { metaversion := none, meta := [], metacheckpoints := [], now := 0 } 7).1 rfl

/-- C4: two consecutive calls report the same version (the second call is a
no-op on the state produced by the first), and from any state whose version
table holds at most one row — in particular the absent or freshly created
table — a successful call leaves exactly one row. -/
theorem createMetaVersion_stable (s : DBState) (sv1 sv2 : Int) :
    (∀ v1 s1, CreateMetaVersionIfNotExists s sv1 = Except.ok (v1, s1) →
      CreateMetaVersionIfNotExists s1 sv2 = Except.ok (v1, s1)) ∧
    ((∀ rows, s.metaversion = some rows → rows.length ≤ 1) →
      ∀ v1 s1, CreateMetaVersionIfNotExists s sv1 = Except.ok (v1, s1) →
        s1.metaversion = some [v1]) := by
  constructor
  · intro v1 s1 h
    obtain ⟨t, ht⟩ := cmv_head s sv1 v1 s1 h
    exact cmv_of_cons s1 sv2 v1 t ht
  · intro hle v1 s1 h
    exact cmv_one_row s sv1 v1 s1 hle h

/-- C4 witness: on a database already seeded with version 3, a second call
with default 9 reports 3 again, leaving the single row in place. -/
theorem createMetaVersion_stable_witness :
    CreateMetaVersionIfNotExists
        { metaversion := some [3], meta := [], metacheckpoints := [], now := 0 } 9 =
      Except.ok (3,
        { metaversion := some [3], meta := [], metacheckpoints := [], now := 0 }) ∧
    (({ metaversion := some [3], meta := [], metacheckpoints := [], now := 0 } :
        DBState).metaversion = some [3]) := by
  refine ⟨?_, rfl⟩
  exact (createMetaVersion_stable
      { metaversion := none, meta := [], metacheckpoints := [], now := 0 } 3 9).1 3
    { metaversion := some [3], meta := [], metacheckpoints := [], now := 0 }
    (by decide)

/-- C9: `DeleteMetaCheckpoints` removes every checkpoint row for every
filename — afterwards listing checkpoints for any filename is empty. -/
theorem deleteMetaCheckpoints_clears_all (s : DBState) (filename : String) :
    GetMetaCheckpoints (DeleteMetaCheckpoints s) filename = [] ∧
    (DeleteMetaCheckpoints s).metacheckpoints = [] := by
  exact ⟨rfl, rfl⟩

/-- C7: inserting a migration whose filename is already recorded fails with
the duplicate-entry integrity error — the one error kind
`SqlError.isIntegrityError` singles out from every other failure. -/
theorem insertMigration_duplicate (s : DBState) (f c k : String)
    (h : ∃ r ∈ s.meta, r.filename = f) :
    InsertMigration s f c k = Except.error (SqlError.dupEntry f) ∧
    (SqlError.dupEntry f).isIntegrityError = true ∧
    (∀ e : SqlError, e.isIntegrityError = true → ∃ key, e = SqlError.dupEntry key) := by
  refine ⟨?_, rfl, ?_⟩
  · have hany : s.meta.any (fun r => r.filename == f) = true := by
      obtain ⟨r, hr, hf⟩ := h
      exact List.any_eq_true.2 ⟨r, hr, by simp [hf]⟩
    simp [InsertMigration, hany]
  · intro e he
    cases e <;> simp_all [SqlError.isIntegrityError]

/-- C7 witness: re-inserting the recorded filename `a.sql` is rejected as a
duplicate entry. -/
theorem insertMigration_duplicate_witness :
    InsertMigration
        { metaversion := none,
          meta := [{ filename := "a.sql", md5 := "m", content := "c", createdat := 0 }],
          metacheckpoints := [], now := 1 } "a.sql" "c2" "m2" =
      Except.error (SqlError.dupEntry "a.sql") :=
  (insertMigration_duplicate
      { metaversion := none,
        meta := [{ filename := "a.sql", md5 := "m", content := "c", createdat := 0 }],
        metacheckpoints := [], now := 1 } "a.sql" "c2" "m2"
      ⟨{ filename := "a.sql", md5 := "m", content := "c", createdat := 0 },
        by simp, rfl⟩).1

end Migrate.Mysql

namespace Migrate.Mysql

instance (key : α → Int) : IsTotal α (keyLE key) :=
  ⟨fun a b => Int.le_total (key a) (key b)⟩

instance (key : α → Int) : IsTrans α (keyLE key) :=
  ⟨fun _ _ _ hab hbc => le_trans hab hbc⟩

/-- C5: `GetMigrations` returns all stored migration records (a permutation
of the `meta` rows), ordered by the numeric-aware key on the filename's
leading numeric prefix; in particular `9_x.sql` sorts before `10_y.sql`. -/
theorem getMigrations_ordered (s : DBState) :
    (GetMigrations s).Perm (s.meta.map (fun r =>
      ({ filename := r.filename, content := r.content, checksum := r.md5 } :
        Migration))) ∧
    List.Pairwise
      (fun a b : Migration => leadingNumber a.filename ≤ leadingNumber b.filename)
      (GetMigrations s) ∧
    GetMigrations
        { metaversion := none,
          meta :=
            [{ filename := "10_y.sql", md5 := "k10", content := "b", createdat := 0 },
             { filename := "9_x.sql", md5 := "k9", content := "a", createdat := 0 }],
          metacheckpoints := [], now := 0 } =
      [{ filename := "9_x.sql", content := "a", checksum := "k9" },
       { filename := "10_y.sql", content := "b", checksum := "k10" }] := by
  refine ⟨?_, ?_, by decide⟩
  · exact (List.perm_insertionSort _ s.meta).map _
  · have hs := List.sorted_insertionSort
      (keyLE (fun r : MetaRow => (leadingNumber r.filename : Int))) s.meta
    unfold GetMigrations
    rw [List.pairwise_map]
    refine hs.imp ?_
    intro a b h
    simp only [keyLE] at h
    exact_mod_cast h

/-- Shared upsert observation: after `UpsertMigration` every stored row for
the given filename holds exactly the supplied content and checksum, and at
least one such row exists. -/
theorem upsert_stores (s : DBState) (f c k : String) :
    (∀ r ∈ (UpsertMigration s f c k).meta, r.filename = f →
      r.content = c ∧ r.md5 = k) ∧
    (∃ r ∈ (UpsertMigration s f c k).meta, r.filename = f) := by
  by_cases h : s.meta.any (fun r => r.filename == f) = true
  · constructor
    · intro r hr hrf
      simp only [UpsertMigration, h, if_true] at hr
      obtain ⟨r0, hr0, hmap⟩ := List.mem_map.1 hr
      by_cases h0 : (r0.filename == f) = true
      · rw [if_pos h0] at hmap
        subst hmap
        exact ⟨rfl, rfl⟩
      · rw [if_neg h0] at hmap
        subst hmap
        exact absurd (beq_iff_eq.2 hrf) h0
    · obtain ⟨r0, hr0, hp⟩ := List.any_eq_true.1 h
      refine ⟨{ r0 with md5 := k, content := c }, ?_, ?_⟩
      · simp only [UpsertMigration, h, if_true]
        refine List.mem_map.2 ⟨r0, hr0, ?_⟩
        rw [if_pos hp]
      · exact beq_iff_eq.1 hp
  · have hfalse : s.meta.any (fun r => r.filename == f) = false := by
      simpa using h
    constructor
    · intro r hr hrf
      simp only [UpsertMigration, h, if_false, if_neg] at hr
      rcases List.mem_append.1 hr with hold | hnew
      · have := List.any_eq_false.1 hfalse r hold
        exact absurd (beq_iff_eq.2 hrf) this
      · have : r = { filename := f, md5 := k, content := c, createdat := s.now } := by
          simpa using hnew
        subst this
        exact ⟨rfl, rfl⟩
    · refine ⟨{ filename := f, md5 := k, content := c, createdat := s.now }, ?_, rfl⟩
      simp only [UpsertMigration, h, if_false, if_neg]
      exact List.mem_append.2 (Or.inr (by simp))

/-- C8: `UpsertMigration` appends a fresh record when the filename is
absent; after an upsert the record stored for the filename carries exactly
the supplied content and checksum, and after two consecutive upserts with
different content both take effect in order and the latest values win. -/
theorem upsertMigration_latest_wins (s : DBState) (f c1 k1 c2 k2 : String) :
    (s.meta.any (fun r => r.filename == f) = false →
      (UpsertMigration s f c1 k1).meta =
        s.meta ++
          [{ filename := f, md5 := k1, content := c1, createdat := s.now }]) ∧
    (∀ r ∈ (UpsertMigration s f c1 k1).meta, r.filename = f →
      r.content = c1 ∧ r.md5 = k1) ∧
    (∃ r ∈ (UpsertMigration s f c1 k1).meta, r.filename = f) ∧
    (∀ r ∈ (UpsertMigration (UpsertMigration s f c1 k1) f c2 k2).meta,
      r.filename = f → r.content = c2 ∧ r.md5 = k2) ∧
    (∃ r ∈ (UpsertMigration (UpsertMigration s f c1 k1) f c2 k2).meta,
      r.filename = f) := by
  refine ⟨?_, (upsert_stores s f c1 k1).1, (upsert_stores s f c1 k1).2,
    (upsert_stores (UpsertMigration s f c1 k1) f c2 k2).1,
    (upsert_stores (UpsertMigration s f c1 k1) f c2 k2).2⟩
  intro h
  simp [UpsertMigration, h]

/-- C8 witness: upserting `f.sql` into an empty store appends the record. -/
theorem upsertMigration_latest_wins_witness :
    (UpsertMigration
        { metaversion := none, meta := [], metacheckpoints := [], now := 5 }
        "f.sql" "c1" "k1").meta =
      [] ++ [{ filename := "f.sql", md5 := "k1", content := "c1", createdat := 5 }] :=
  (upsertMigration_latest_wins
      { metaversion := none, meta := [], metacheckpoints := [], now := 5 }
      "f.sql" "c1" "k1" "c2" "k2").1 rfl

end Migrate.Mysql

namespace Migrate.Mysql

/-- C10: when the filename is already present, `UpsertMigration` touches
only the matching row's `md5` and `content` columns: the stored filenames
and created-at timestamps are unchanged column-wise, every row for another
filename is carried over unchanged (in both directions), the matching rows
hold the new checksum and content, and the other tables are untouched. -/
theorem upsertMigration_frame (s : DBState) (f c k : String)
    (hf : s.meta.any (fun r => r.filename == f) = true) :
    (UpsertMigration s f c k).meta.map MetaRow.filename =
        s.meta.map MetaRow.filename ∧
    (UpsertMigration s f c k).meta.map MetaRow.createdat =
        s.meta.map MetaRow.createdat ∧
    (∀ r ∈ s.meta, ¬ r.filename = f → r ∈ (UpsertMigration s f c k).meta) ∧
    (∀ r ∈ (UpsertMigration s f c k).meta, ¬ r.filename = f → r ∈ s.meta) ∧
    (∀ r ∈ (UpsertMigration s f c k).meta, r.filename = f →
      r.md5 = k ∧ r.content = c) ∧
    (UpsertMigration s f c k).metacheckpoints = s.metacheckpoints ∧
    (UpsertMigration s f c k).metaversion = s.metaversion := by
  have hmeta : (UpsertMigration s f c k).meta = s.meta.map (fun r =>
      if r.filename == f then { r with md5 := k, content := c } else r) := by
    simp [UpsertMigration, hf]
  refine ⟨?_, ?_, ?_, ?_, ?_, ?_, ?_⟩
  · rw [hmeta, List.map_map]
    refine List.map_congr_left ?_
    intro r hr
    by_cases h0 : (r.filename == f) = true <;> simp [Function.comp, h0]
  · rw [hmeta, List.map_map]
    refine List.map_congr_left ?_
    intro r hr
    by_cases h0 : (r.filename == f) = true <;> simp [Function.comp, h0]
  · intro r hr hrf
    rw [hmeta]
    refine List.mem_map.2 ⟨r, hr, ?_⟩
    rw [if_neg]
    simp [hrf]
  · intro r hr hrf
    rw [hmeta] at hr
    obtain ⟨r0, hr0, hmap⟩ := List.mem_map.1 hr
    by_cases h0 : (r0.filename == f) = true
    · rw [if_pos h0] at hmap
      subst hmap
      exact absurd (beq_iff_eq.1 h0) hrf
    · rw [if_neg h0] at hmap
      subst hmap
      exact hr0
  · intro r hr hrf
    rw [hmeta] at hr
    obtain ⟨r0, hr0, hmap⟩ := List.mem_map.1 hr
    by_cases h0 : (r0.filename == f) = true
    · rw [if_pos h0] at hmap
      subst hmap
      exact ⟨rfl, rfl⟩
    · rw [if_neg h0] at hmap
      subst hmap
      exact absurd (beq_iff_eq.2 hrf) h0
  · simp [UpsertMigration, hf]
  · simp [UpsertMigration, hf]

/-- C10 witness: upserting over the existing row for `a.sql` replaces only
its checksum and content, keeping the second row and the timestamps. -/
theorem upsertMigration_frame_witness :
    (UpsertMigration
        { metaversion := none,
          meta :=
            [{ filename := "a.sql", md5 := "m1", content := "c1", createdat := 4 },
             { filename := "b.sql", md5 := "m2", content := "c2", createdat := 6 }],
          metacheckpoints := [], now := 9 } "a.sql" "c9" "k9").meta.map
        MetaRow.createdat =
      ([{ filename := "a.sql", md5 := "m1", content := "c1", createdat := 4 },
        { filename := "b.sql", md5 := "m2", content := "c2", createdat := 6 }] :
          List MetaRow).map MetaRow.createdat :=
  (upsertMigration_frame
      { metaversion := none,
        meta :=
          [{ filename := "a.sql", md5 := "m1", content := "c1", createdat := 4 },
           { filename := "b.sql", md5 := "m2", content := "c2", createdat := 6 }],
        metacheckpoints := [], now := 9 } "a.sql" "c9" "k9" (by decide)).2.1

end Migrate.Mysql

namespace Migrate.Mysql

/-- C6: starting from a state with no checkpoints recorded for `F`,
appending `(idx 0, checksum A)` and then `(idx 1, checksum B)` for `F`
succeeds, listing the checkpoints of `F` returns exactly `[A, B]` in index
order, and re-appending index 0 for `F` is rejected with the duplicate-key
integrity error instead of overwriting. -/
theorem checkpoint_append_list (s s1 s2 : DBState) (F A B ca cb : String)
    (hF : ∀ r ∈ s.metacheckpoints, r.filename ≠ F)
    (h1 : InsertMetaCheckpoint s F ca A 0 = Except.ok s1)
    (h2 : InsertMetaCheckpoint s1 F cb B 1 = Except.ok s2) :
    GetMetaCheckpoints s2 F = [A, B] ∧
    InsertMetaCheckpoint s2 F ca A 0 =
      Except.error (SqlError.dupEntry (F ++ "-" ++ toString (0 : Int))) ∧
    (SqlError.dupEntry (F ++ "-" ++ toString (0 : Int))).isIntegrityError = true := by
  have hany0 : s.metacheckpoints.any
      (fun r => r.filename == F && r.idx == (0 : Int)) = false := by
    rw [List.any_eq_false]
    intro r hr
    simp [hF r hr]
  rw [InsertMetaCheckpoint, if_neg (by simp [hany0])] at h1
  have hs1 : s1 = { s with metacheckpoints := s.metacheckpoints ++
      [{ filename := F, idx := 0, md5 := A, content := ca, createdat := s.now }] } := by
    exact (Except.ok.inj h1).symm
  have hany1 : s1.metacheckpoints.any
      (fun r => r.filename == F && r.idx == (1 : Int)) = false := by
    rw [hs1, List.any_eq_false]
    intro r hr
    rcases List.mem_append.1 hr with hold | hnew
    · simp [hF r hold]
    · have : r = { filename := F, idx := 0, md5 := A, content := ca,
                     createdat := s.now } := by simpa using hnew
      subst this
      simp
  rw [InsertMetaCheckpoint, if_neg (by simp [hany1])] at h2
  have hs2 : s2 = { s1 with metacheckpoints := s1.metacheckpoints ++
      [{ filename := F, idx := 1, md5 := B, content := cb,
         createdat := s1.now }] } := by
    exact (Except.ok.inj h2).symm
  have hfilter : s.metacheckpoints.filter (fun r => r.filename == F) = [] := by
    rw [List.filter_eq_nil_iff]
    intro r hr
    simp [hF r hr]
  subst hs2
  subst hs1
  have hcp2 : ({ s with metacheckpoints := s.metacheckpoints ++
      [{ filename := F, idx := 0, md5 := A, content := ca, createdat := s.now }] } :
        DBState).metacheckpoints ++
      [{ filename := F, idx := 1, md5 := B, content := cb,
         createdat := ({ s with metacheckpoints := s.metacheckpoints ++
           [{ filename := F, idx := 0, md5 := A, content := ca,
              createdat := s.now }] } : DBState).now }] =
      s.metacheckpoints ++
      [{ filename := F, idx := 0, md5 := A, content := ca, createdat := s.now },
       { filename := F, idx := 1, md5 := B, content := cb, createdat := s.now }] := by
    simp
  refine ⟨?_, ?_, rfl⟩
  · rw [GetMetaCheckpoints]
    simp only [hcp2]
    rw [List.filter_append, hfilter]
    simp [List.insertionSort, List.orderedInsert, keyLE]
  · rw [InsertMetaCheckpoint, if_pos]
    simp only [hcp2]
    rw [List.any_eq_true]
    refine ⟨{ filename := F, idx := 0, md5 := A, content := ca,
              createdat := s.now }, ?_, by simp⟩
    exact List.mem_append.2 (Or.inr (by simp))

/-- C6 witness: a concrete run from an empty checkpoint table with
filename `f.sql`, checksums `a` then `b`. -/
theorem checkpoint_append_list_witness :
    GetMetaCheckpoints
        { metaversion := none, meta := [],
          metacheckpoints :=
            [{ filename := "f.sql", idx := 0, md5 := "a", content := "s0",
               createdat := 0 },
             { filename := "f.sql", idx := 1, md5 := "b", content := "s1",
               createdat := 0 }], now := 0 } "f.sql" = ["a", "b"] ∧
    InsertMetaCheckpoint
        { metaversion := none, meta := [],
          metacheckpoints :=
            [{ filename := "f.sql", idx := 0, md5 := "a", content := "s0",
               createdat := 0 },
             { filename := "f.sql", idx := 1, md5 := "b", content := "s1",
               createdat := 0 }], now := 0 } "f.sql" "s0" "a" 0 =
      Except.error (SqlError.dupEntry ("f.sql" ++ "-" ++ toString (0 : Int))) ∧
    (SqlError.dupEntry ("f.sql" ++ "-" ++ toString (0 : Int))).isIntegrityError =
      true :=
  checkpoint_append_list
    { metaversion := none, meta := [], metacheckpoints := [], now := 0 }
    { metaversion := none, meta := [],
      metacheckpoints :=
        [{ filename := "f.sql", idx := 0, md5 := "a", content := "s0",
           createdat := 0 }], now := 0 }
    { metaversion := none, meta := [],
      metacheckpoints :=
        [{ filename := "f.sql", idx := 0, md5 := "a", content := "s0",
           createdat := 0 },
         { filename := "f.sql", idx := 1, md5 := "b", content := "s1",
           createdat := 0 }], now := 0 }
    "f.sql" "a" "b" "s0" "s1" (by simp) (by decide) (by decide)

end Migrate.Mysql


namespace Migrate.Mysql

/-- The per-row effect of the backfill loop: each supplied migration in
turn overwrites the row's content when the filenames match. -/
def backfillRow (migrations : List Migration) (r : MetaRowV0) : MetaRowV0 :=
  migrations.foldl
    (fun r2 m =>
      if r2.filename == m.filename then { r2 with content := some m.content }
      else r2)
    r

/-- The backfill loop acts row-wise. -/
theorem backfillContent_eq (s : SchemaState) (ms : List Migration) :
    backfillContent s ms = { s with meta := s.meta.map (backfillRow ms) } := by
  induction ms generalizing s with
  | nil =>
    have hm : s.meta.map (backfillRow []) = s.meta := by
      have hb : backfillRow [] = fun r => r := rfl
      rw [hb]
      exact List.map_id' s.meta
    rw [hm]
    rfl
  | cons m ms ih =>
    rw [backfillContent, List.foldl_cons]
    rw [show ∀ s2 : SchemaState, List.foldl _ s2 ms = backfillContent s2 ms
        from fun _ => rfl]
    rw [ih]
    simp only [List.map_map]
    rfl

/-- Backfilling never changes a row's filename. -/
theorem backfillRow_filename (ms : List Migration) (r : MetaRowV0) :
    (backfillRow ms r).filename = r.filename := by
  induction ms generalizing r with
  | nil => rfl
  | cons m ms ih =>
    rw [backfillRow, List.foldl_cons]
    rw [show ∀ r2, List.foldl _ r2 ms = backfillRow ms r2 from fun _ => rfl]
    by_cases h : (r.filename == m.filename) = true
    · rw [if_pos h, ih]
    · rw [if_neg h, ih]

/-- A backfilled row still holds NULL exactly when it held NULL before and
no supplied migration matches its filename. -/
theorem backfillRow_content_none (ms : List Migration) (r : MetaRowV0) :
    (backfillRow ms r).content = none ↔
      (r.content = none ∧ ms.any (fun m => r.filename == m.filename) = false) := by
  induction ms generalizing r with
  | nil => simp [backfillRow]
  | cons m ms ih =>
    rw [backfillRow, List.foldl_cons]
    rw [show ∀ r2, List.foldl _ r2 ms = backfillRow ms r2 from fun _ => rfl]
    by_cases h : (r.filename == m.filename) = true
    · rw [if_pos h]
      rw [ih]
      simp [h]
    · rw [if_neg h]
      rw [ih]
      simp [h]

/-- The NULL check performed by the NOT NULL tightening, computed over the
freshly added and then backfilled content column: some row is still NULL
exactly when some stored row is matched by no supplied migration. -/
theorem backfill_null_check (meta : List MetaRowV0) (ms : List Migration) :
    ((meta.map (fun r => { r with content := none })).map (backfillRow ms)).any
        (fun r => r.content.isNone) =
      !(meta.all (fun r => ms.any (fun m => r.filename == m.filename))) := by
  induction meta with
  | nil => rfl
  | cons r rest ih =>
    simp only [List.map_cons, List.any_cons, List.all_cons, ih]
    have hhead : (backfillRow ms { r with content := none }).content.isNone =
        !(ms.any (fun m => r.filename == m.filename)) := by
      by_cases h : ms.any (fun m => r.filename == m.filename) = true
      · have : ¬ (backfillRow ms { r with content := none }).content = none := by
          rw [backfillRow_content_none]
          simp [h]
        rw [h]
        simp only [Bool.not_true, Option.isNone_eq_false_iff, Option.isSome_iff_ne_none]
        exact this
      · have hf : ms.any (fun m => r.filename == m.filename) = false := by
          simpa using h
        have : (backfillRow ms { r with content := none }).content = none := by
          rw [backfillRow_content_none]
          simp [hf]
        rw [hf]
        simp [Option.isNone_iff_eq_none, this]
    rw [hhead]
    cases ms.any (fun m => r.filename == m.filename) <;>
      cases rest.all (fun r => ms.any (fun m => r.filename == m.filename)) <;> rfl

end Migrate.Mysql


namespace Migrate.Mysql

/-- Whatever state the transaction body succeeds in has the version table
holding exactly the single row 1. -/
theorem upgradeSteps_ok_version (s : SchemaState) (ms : List Migration)
    (s2 : SchemaState) (h : upgradeSteps s ms = Except.ok s2) :
    s2.metaversion = some [1] := by
  rw [upgradeSteps] at h
  split at h
  · cases h
  · split at h
    · cases h
    · split at h
      · cases h
      · split at h
        · split at h
          · cases h
            rfl
          · cases h
        · cases h
          rfl

/-- The transaction body succeeds exactly when the starting schema is a v0
schema (md5 index present, no content column on `meta`) and every stored
migration row is matched by filename in the supplied list; the index drop,
the column add and the NOT NULL tightening are the only statements that can
abort, while a duplicate content column on `metacheckpoints` is tolerated
and the version-table statements cannot fail. -/
theorem upgradeSteps_ok_iff (s : SchemaState) (ms : List Migration) :
    (∃ s2, upgradeSteps s ms = Except.ok s2) ↔
      (s.metaHasMd5Index = true ∧ s.metaHasContent = false ∧
        s.meta.all (fun r => ms.any (fun m => r.filename == m.filename)) = true) := by
  by_cases h1 : s.metaHasMd5Index = true
  · by_cases h2 : s.metaHasContent = true
    · simp [upgradeSteps, dropMd5Index, addMetaContent, h1, h2]
    · have h2f : s.metaHasContent = false := by simpa using h2
      by_cases hall : s.meta.all (fun r => ms.any (fun m => r.filename == m.filename)) = true
      · have hnotP : ¬ ∃ x ∈ s.meta, (backfillRow ms
            { filename := x.filename, md5 := x.md5, content := none,
              createdat := x.createdat }).content = none := by
          rintro ⟨x, hx, hc⟩
          rw [backfillRow_content_none] at hc
          have hmatch := List.all_eq_true.1 hall x hx
          have h2c := hc.2
          simp only at h2c
          rw [h2c] at hmatch
          cases hmatch
        by_cases hcp : s.cpHasContent = true
        · simp [upgradeSteps, dropMd5Index, addMetaContent, backfillContent_eq,
            setContentNotNull, addCpContent, SqlError.isDupColumn, h1, h2f, hall,
            hnotP, hcp]
        · have hcpf : s.cpHasContent = false := by simpa using hcp
          simp [upgradeSteps, dropMd5Index, addMetaContent, backfillContent_eq,
            setContentNotNull, addCpContent, SqlError.isDupColumn, h1, h2f, hall,
            hnotP, hcpf]
      · have hallf := (Bool.not_eq_true _).mp hall
        have hP : ∃ x ∈ s.meta, (backfillRow ms
            { filename := x.filename, md5 := x.md5, content := none,
              createdat := x.createdat }).content = none := by
          have hex : ¬ ∀ x ∈ s.meta,
              (ms.any (fun m => x.filename == m.filename)) = true := by
            rw [← List.all_eq_true]
            exact hall
          push_neg at hex
          obtain ⟨x, hx, hxf⟩ := hex
          refine ⟨x, hx, ?_⟩
          rw [backfillRow_content_none]
          exact ⟨rfl, by simpa using hxf⟩
        simp [upgradeSteps, dropMd5Index, addMetaContent, backfillContent_eq,
          setContentNotNull, h1, h2f, hallf, hP]
  · have h1f : s.metaHasMd5Index = false := by simpa using h1
    simp [upgradeSteps, dropMd5Index, h1f]

/-- C1: if any step of `UpgradeToV1` fails, the deferred rollback leaves the
caller-observed schema and rows exactly as they were before the call; on
success the version table holds exactly the single value 1.  The third
conjunct pins down exactly when the transaction succeeds. -/
theorem upgradeToV1_atomic (s : SchemaState) (ms : List Migration) :
    ((UpgradeToV1 s ms).2.isSome = true → (UpgradeToV1 s ms).1 = s) ∧
    ((UpgradeToV1 s ms).2 = none → (UpgradeToV1 s ms).1.metaversion = some [1]) ∧
    ((UpgradeToV1 s ms).2 = none ↔
      (s.metaHasMd5Index = true ∧ s.metaHasContent = false ∧
        s.meta.all (fun r => ms.any (fun m => r.filename == m.filename)) = true)) := by
  rcases hu : upgradeSteps s ms with e | s2
  · refine ⟨fun _ => ?_, fun hnone => ?_, ?_⟩
    · rw [UpgradeToV1, hu]
    · rw [UpgradeToV1, hu] at hnone
      exact absurd hnone (by simp)
    · rw [UpgradeToV1, hu]
      constructor
      · intro h
        exact absurd h (by simp)
      · intro hR
        obtain ⟨s3, hs3⟩ := (upgradeSteps_ok_iff s ms).2 hR
        rw [hu] at hs3
        cases hs3
  · refine ⟨fun hsome => ?_, fun _ => ?_, ?_⟩
    · rw [UpgradeToV1, hu] at hsome
      exact absurd hsome (by simp)
    · rw [UpgradeToV1, hu]
      exact upgradeSteps_ok_version s ms s2 hu
    · rw [UpgradeToV1, hu]
      exact iff_of_true rfl ((upgradeSteps_ok_iff s ms).1 ⟨s2, hu⟩)

/-- C1 witness: with no `md5` index the first statement fails and the caller
observes the pre-transaction state unchanged; from a v0 schema whose single
row is matched by the supplied migration the upgrade commits and the
version table holds exactly the value 1. -/
theorem upgradeToV1_atomic_witness :
    (UpgradeToV1
        { metaHasMd5Index := false, metaHasContent := false,
          metaContentNotNull := false, meta := [], cpHasContent := false,
          metacheckpoints := [], metaversion := some [0] } []).1 =
      { metaHasMd5Index := false, metaHasContent := false,
        metaContentNotNull := false, meta := [], cpHasContent := false,
        metacheckpoints := [], metaversion := some [0] } ∧
    (UpgradeToV1
        { metaHasMd5Index := true, metaHasContent := false,
          metaContentNotNull := false,
          meta := [{ filename := "1_init.sql", md5 := "m", content := none,
                     createdat := 0 }],
          cpHasContent := false, metacheckpoints := [],
          metaversion := some [0] }
        [{ filename := "1_init.sql", content := "create table t (id int)",
           checksum := "m" }]).1.metaversion = some [1] :=
  ⟨(upgradeToV1_atomic
      { metaHasMd5Index := false, metaHasContent := false,
        metaContentNotNull := false, meta := [], cpHasContent := false,
        metacheckpoints := [], metaversion := some [0] } []).1 (by decide),
   (upgradeToV1_atomic
      { metaHasMd5Index := true, metaHasContent := false,
        metaContentNotNull := false,
        meta := [{ filename := "1_init.sql", md5 := "m", content := none,
                   createdat := 0 }],
        cpHasContent := false, metacheckpoints := [],
        metaversion := some [0] }
      [{ filename := "1_init.sql", content := "create table t (id int)",
         checksum := "m" }]).2.1 (by decide)⟩

end Migrate.Mysql

namespace Migrate.Mysql

/-- C2 counterexample: supplying only the client certificate (key, CA cert
and server name all empty) does not fail — `New` succeeds and builds no TLS
configuration, contradicting the claim that supplying any one of the four
TLS parameters while another is missing fails construction. -/
theorem new_partial_tls_counterexample :
    New "u" "p" "h" "db" 3306 "" "c.pem" "" "" =
      Except.ok { connURL := "u:p@tcp(h:3306)/db?parseTime=true",
                  tlsConfig := none } := by
  decide

/-- C2 (amended): the validation is keyed on the client key alone — when the
key is supplied, server name, client cert and CA cert are each required in
turn, with a distinct descriptive configuration error for the first one
missing, and the TLS configuration is built exactly when all four are
supplied; when the key is empty the other three parameters are ignored and
construction succeeds without TLS. -/
theorem new_tls_validation (user pass host dbName : String) (port : Int)
    (key cert ca name : String) :
    (key ≠ "" → (name = "" ∨ cert = "" ∨ ca = "") →
      New user pass host dbName port key cert ca name =
        Except.error (if name = "" then
            "ssl server name required if ssl key is provided"
          else if cert = "" then
            "client ssl cert is required if ssl key is provided"
          else "server ca cert is required if ssl key is provided")) ∧
    (key ≠ "" → name ≠ "" → cert ≠ "" → ca ≠ "" →
      New user pass host dbName port key cert ca name =
        Except.ok
          { connURL := user ++ ":" ++ pass ++ "@tcp(" ++ host ++ ":" ++
              toString port ++ ")/" ++ dbName ++ "?parseTime=true" ++ "&tls=" ++
              name,
            tlsConfig := some { serverName := name, keyPath := key,
                                certPath := cert, caPath := ca } }) ∧
    (key = "" →
      New user pass host dbName port key cert ca name =
        Except.ok
          { connURL := user ++ ":" ++ pass ++ "@tcp(" ++ host ++ ":" ++
              toString port ++ ")/" ++ dbName ++ "?parseTime=true",
            tlsConfig := none }) := by
  refine ⟨?_, ?_, ?_⟩
  · intro hk hm
    by_cases hn : name = ""
    · simp [New, hk, hn]
    · by_cases hc : cert = ""
      · simp [New, hk, hn, hc]
      · have hca : ca = "" := by tauto
        simp [New, hk, hn, hc, hca]
  · intro hk hn hc hca
    simp [New, hk, hn, hc, hca]
  · intro hk
    simp [New, hk]

/-- C2 witness: a key with no client cert is rejected with the cert error. -/
theorem new_tls_validation_witness :
    New "u" "p" "h" "db" 3306 "k.pem" "" "" "sn" =
      Except.error (if ("sn" : String) = "" then
          "ssl server name required if ssl key is provided"
        else if ("" : String) = "" then
          "client ssl cert is required if ssl key is provided"
        else "server ca cert is required if ssl key is provided") :=
  (new_tls_validation "u" "p" "h" "db" 3306 "k.pem" "" "" "sn").1
    (by decide) (Or.inr (Or.inl rfl))

end Migrate.Mysql
